import Mathlib

set_option autoImplicit false

/-!
Shallow embedding of the ledger logic of `streamlit_app.py` (the Spring NS
expense tracker): the `submit_expense` saga, the count-based transaction-id
allocation, and the per-row undo handler inside `undo_transactions`.

Monetary values are modelled as exact rationals (the source uses Python
floats); dates as year/month/day triples with the two formatting functions
the source calls (`isoformat`, `strftime` with the Ymd pattern).

The three Supabase tables (`accounts`, `expenses`, `cash_flow`) are modelled
as lists of records.  Store-layer failures that the source checks for
(`update_resp.data is None`, `insert_resp.data is None`, the cash-flow
failure branch of `log_cash_flow`) are exogenous: they are passed to
`submit_expense` as three Booleans, `true` meaning the call succeeds.
-/

/-- A row of the `accounts` table: `id, account_name, balance`. -/
structure Account where
  id : String
  account_name : String
  balance : ℚ
deriving DecidableEq, Repr

/-- A row of the `expenses` table, as built in `submit_expense`. -/
structure ExpenseRecord where
  id : String
  billing_date : String
  payment_date : String
  type : String
  main_category : String
  subcategory : String
  description : String
  from_account : String
  price : ℚ
  quantity : ℤ
  amount : ℚ
deriving DecidableEq, Repr

/-- A row of the `cash_flow` table, as built in `log_cash_flow`. -/
structure CashFlowEntry where
  transaction_id : String
  type : String
  account : String
  transaction_amount : ℚ
  updated_balance : ℚ
  billing_date : String
  payment_date : String
deriving DecidableEq, Repr

/-- The whole durable state: the three Supabase tables. -/
structure DB where
  accounts : List Account
  expenses : List ExpenseRecord
  cash_flow : List CashFlowEntry
deriving DecidableEq, Repr

/-- A calendar date, as `datetime.date` is used by the app. -/
structure PyDate where
  year : ℕ
  month : ℕ
  day : ℕ
deriving DecidableEq, Repr

/-- Zero-pad a natural to two digits, as `%m` / `%d` do. -/
def pad2 (n : ℕ) : String :=
  if n < 10 then "0" ++ toString n else toString n

/-- Zero-pad a natural to three digits, as the format `03d` does. -/
def pad3 (n : ℕ) : String :=
  if n < 10 then "00" ++ toString n
  else if n < 100 then "0" ++ toString n
  else toString n

/-- Zero-pad a natural to four digits, as `%Y` does. -/
def pad4 (n : ℕ) : String :=
  if n < 10 then "000" ++ toString n
  else if n < 100 then "00" ++ toString n
  else if n < 1000 then "0" ++ toString n
  else toString n

/-- `date.isoformat()`: the `YYYY-MM-DD` string. -/
def PyDate.isoformat (d : PyDate) : String :=
  pad4 d.year ++ "-" ++ pad2 d.month ++ "-" ++ pad2 d.day

/-- `date.strftime` with the year-month-day pattern: the `YYYYMMDD` string. -/
def PyDate.strftimeYmd (d : PyDate) : String :=
  pad4 d.year ++ pad2 d.month ++ pad2 d.day

/-- The dictionary returned by `render_expense_form`.  `selected_account` is
the snapshot of the chosen account as it was displayed in the form (its
`balance` is the balance observed at render time, not necessarily the
currently stored one); `amount` is the value the form computed. -/
structure FormData where
  billing_date : PyDate
  payment_date : PyDate
  expense_type : String
  main_category : String
  subcategory : String
  description : String
  selected_account : Account
  price : ℚ
  quantity : ℤ
  amount : ℚ
deriving DecidableEq, Repr

/-- `CATEGORY_OPTIONS` from the source: main category to subcategories. -/
def CATEGORY_OPTIONS : List (String × List String) :=
  [("Food", ["Breakfast", "Lunch", "Dinner", "Snacks"]),
   ("Transportation", ["Bus", "Train", "Flight", "Ship", "Bike", "Cabs"]),
   ("Utilities", ["Electricity", "Internet"]),
   ("Health", ["Medicine", "Hospital"]),
   ("Entertainment", ["Theatre", "Concerts", "Subscriptions"]),
   ("Others", ["Gifts", "Bank Charges", "Insurance"])]

/-- A category/subcategory pair is recognized when the subcategory is listed
under the main category in `CATEGORY_OPTIONS`. -/
def recognized_pair (c s : String) : Bool :=
  CATEGORY_OPTIONS.any (fun p => p.1 = c && p.2.contains s)

/-- `supabase.table "accounts" |>.update {balance} |>.eq "id" i`: set the
balance of every account row whose `id` equals `i`. -/
def updateBalance (accounts : List Account) (i : String) (b : ℚ) : List Account :=
  accounts.map (fun a => if a.id = i then { a with balance := b } else a)

/-- The count query of `submit_expense`: number of `expenses` rows whose
`billing_date` equals the given iso string. -/
def countByBillingDate (db : DB) (d : String) : ℕ :=
  (db.expenses.filter (fun e => e.billing_date = d)).length

/-- The transaction id `submit_expense` builds for a form on a given store
state: `EXP-` ++ the billing date as `YYYYMMDD` ++ `-` ++ (count + 1) padded
to three digits. -/
def txnId (form : FormData) (db : DB) : String :=
  "EXP-" ++ form.billing_date.strftimeYmd ++ "-" ++ pad3 (countByBillingDate db form.billing_date.isoformat + 1)

/-- The `expenses` row `submit_expense` inserts. -/
def mkExpenseRecord (form : FormData) (t : String) : ExpenseRecord :=
  { id := t
    billing_date := form.billing_date.isoformat
    payment_date := form.payment_date.isoformat
    type := form.expense_type
    main_category := form.main_category
    subcategory := form.subcategory
    description := form.description
    from_account := form.selected_account.account_name
    price := form.price
    quantity := form.quantity
    amount := form.amount }

/-- The `cash_flow` row `log_cash_flow` inserts for a submit. -/
def mkCashFlowEntry (form : FormData) (t : String) (new_balance : ℚ) : CashFlowEntry :=
  { transaction_id := t
    type := "Debit"
    account := form.selected_account.account_name
    transaction_amount := form.amount
    updated_balance := new_balance
    billing_date := form.billing_date.isoformat
    payment_date := form.payment_date.isoformat }

/-- Modelled from the spec: `ExpenseStore.Insert(record) → success |
DuplicateIdError`.  The `expenses` table's schema is not under `src/`; the
source treats `id` as the row key (it inserts an explicit `id`, deletes and
orders by `id`), and the spec's store contract makes insertion of a
duplicate id fail.  In the app a duplicate-key insert raises, landing in the
`except` branch of `submit_expense`. -/
def expensesHasId (db : DB) (t : String) : Bool :=
  db.expenses.any (fun e => e.id = t)

/-- `submit_expense(form_data)` from the source, returning the `errors` list
together with the store state after the call.  The three Booleans say
whether the account-balance update, the expense insert and the cash-flow
insert succeed at the store layer (the source checks each and reports an
error, but never compensates earlier writes). -/
def submit_expense (form : FormData) (db : DB)
    (update_ok insert_ok cashflow_ok : Bool) : List String × DB :=
  if form.description = "" then
    (["⚠️ Description is required."], db)
  else if form.price ≤ 0 then
    (["⚠️ Price must be greater than 0."], db)
  else if form.quantity ≤ 0 then
    (["⚠️ Quantity must be at least 1."], db)
  else
    let t := txnId form db
    let new_balance := form.selected_account.balance - form.amount
    if new_balance < 0 then
      (["❌ Insufficient balance in the selected account."], db)
    else if update_ok = false then
      (["❌ Failed to update account balance."], db)
    else
      let db1 : DB := { db with accounts := updateBalance db.accounts form.selected_account.id new_balance }
      if expensesHasId db1 t then
        (["Unexpected error occurred: duplicate key"], db1)
      else if insert_ok = false then
        (["❌ Insert failed."], db1)
      else
        let db2 : DB := { db1 with expenses := db1.expenses ++ [mkExpenseRecord form t] }
        if cashflow_ok = false then
          (["⚠️ Failed to log cash flow."], db2)
        else
          ([], { db2 with cash_flow := db2.cash_flow ++ [mkCashFlowEntry form t new_balance] })

/-- The body of the per-row `Confirm Undo` handler in `undo_transactions`.
Its inputs are the values captured from the listed row (`row.id`,
`float(row.amount)`, `row.from_account`).  It deletes the `expenses` row and
the `cash_flow` rows for the id, then looks the account up **by name** and,
if found, writes `balance + amount` back.  Returns an error message (or
`none` on the success path) and the resulting store state. -/
def undo_transaction (t : String) (amount : ℚ) (acc_name : String) (db : DB) :
    Option String × DB :=
  let db1 : DB :=
    { db with
      expenses := db.expenses.filter (fun e => ¬ e.id = t)
      cash_flow := db.cash_flow.filter (fun c => ¬ c.transaction_id = t) }
  match db1.accounts.find? (fun a => a.account_name = acc_name) with
  | none => (some ("Account " ++ acc_name ++ " not found."), db1)
  | some acc =>
      let new_balance := acc.balance + amount
      (none, { db1 with accounts := updateBalance db1.accounts acc.id new_balance })

/-- First account row carrying a given display name, as
`supabase.table "accounts" |>.select |>.eq "account_name" name` followed by
`data[0]` resolves it. -/
def findByName (accounts : List Account) (n : String) : Option Account :=
  accounts.find? (fun a => a.account_name = n)

/-- The multiset of live transaction ids. -/
def expenseIds (db : DB) : List String :=
  db.expenses.map (fun e => e.id)

/-- Test fixture: the single account used by concrete scenarios. -/
def acctA (b : ℚ) : Account := { id := "a1", account_name := "A", balance := b }

/-- Test fixture: a billing/payment date. -/
def oct12 : PyDate := { year := 2026, month := 10, day := 12 }

/-- Test fixture: a well-formed expense form on account `acctA bal` with
unit price and amount `amt`, quantity 1 (`bal` is the balance the form
observed at render time). -/
def formA (bal amt : ℚ) : FormData :=
  { billing_date := oct12, payment_date := oct12, expense_type := "Expense"
    main_category := "Food", subcategory := "Lunch", description := "x"
    selected_account := acctA bal, price := amt, quantity := 1, amount := amt }

/-- Test fixture: a live expense record with id `EXP-20261012-001`, amount 30. -/
def recA : ExpenseRecord := mkExpenseRecord (formA 100 30) "EXP-20261012-001"

/-- Test fixture: the Debit cash-flow entry paired with `recA`. -/
def cfA : CashFlowEntry := mkCashFlowEntry (formA 100 30) "EXP-20261012-001" 70

/-- Test fixture: one account `A` with balance 1000, no expenses. -/
def dbInit : DB := { accounts := [acctA 1000], expenses := [], cash_flow := [] }

/-- Test fixture: `A` at balance 70 with the live record/cash-flow pair for
`EXP-20261012-001` (amount 30), i.e. the state right after that submit. -/
def dbLive : DB := { accounts := [acctA 70], expenses := [recA], cash_flow := [cfA] }

/-- Test fixture: the live pair for `EXP-20261012-001` but no account at all
(the account was removed out-of-band). -/
def dbOrphan : DB := { accounts := [], expenses := [recA], cash_flow := [cfA] }

/-- Test fixture: account `A` with balance 20 only. -/
def dbPoor : DB := { accounts := [acctA 20], expenses := [], cash_flow := [] }

/-- Test fixture: account `A` stored at balance 50 (while forms built from
`formA 100 _` observed balance 100). -/
def dbStale : DB := { accounts := [acctA 50], expenses := [], cash_flow := [] }

/-- Test fixture: a form whose category/subcategory pairing is not in
`CATEGORY_OPTIONS`. -/
def formBad : FormData :=
  { formA 1000 10 with main_category := "Nope", subcategory := "X" }

/-- Test fixture: a form with an empty description. -/
def formEmptyDesc : FormData := { formA 1000 10 with description := "" }

/-- Test fixture: a form with quantity 0. -/
def formQty0 : FormData := { formA 1000 10 with quantity := 0 }

/-- Reachable state: two submits of amount 10 on `dbInit`, creating
`EXP-20261012-001` and `EXP-20261012-002`, balance 980. -/
def dbAfterTwo : DB :=
  (submit_expense (formA 990 10)
    (submit_expense (formA 1000 10) dbInit true true true).2 true true true).2

/-- Reachable state: `dbAfterTwo` after undoing the first transaction:
only `EXP-20261012-002` is live and the balance is 990. -/
def dbAfterUndo : DB := (undo_transaction "EXP-20261012-001" 10 "A" dbAfterTwo).2

/-- Two balance writes to the same account id compose to the second write. -/
theorem updateBalance_updateBalance (l : List Account) (i : String) (b1 b2 : ℚ) :
    updateBalance (updateBalance l i b1) i b2 = updateBalance l i b2 := by
  unfold updateBalance
  rw [List.map_map]
  apply List.map_congr_left
  intro a _
  by_cases h : a.id = i <;> simp [h, Function.comp]

/-- A balance update never changes account names, so lookup-by-name commutes
with it. -/
theorem findByName_updateBalance (l : List Account) (i : String) (b : ℚ) (n : String) :
    findByName (updateBalance l i b) n
      = Option.map (fun a => if a.id = i then { a with balance := b } else a) (findByName l n) := by
  unfold findByName updateBalance
  rw [List.find?_map]
  have hp : ((fun a : Account => decide (a.account_name = n)) ∘
      (fun a : Account => if a.id = i then { a with balance := b } else a))
      = (fun a : Account => decide (a.account_name = n)) := by
    funext a
    by_cases h : a.id = i <;> simp [h, Function.comp]
  rw [hp]

/-- Characterization of the undo handler when the account name resolves:
both deletions happen and the resolved account's balance is credited. -/
theorem undo_transaction_found (t : String) (amt : ℚ) (n : String) (db : DB)
    (acc : Account) (h : findByName db.accounts n = some acc) :
    undo_transaction t amt n db =
      (none,
       { accounts := updateBalance db.accounts acc.id (acc.balance + amt)
         expenses := db.expenses.filter (fun e => ¬ e.id = t)
         cash_flow := db.cash_flow.filter (fun c => ¬ c.transaction_id = t) }) := by
  unfold undo_transaction
  unfold findByName at h
  simp only [h]

/-- Characterization of the undo handler when no account bears the name:
the error is reported, but both deletions have already happened. -/
theorem undo_transaction_notfound (t : String) (amt : ℚ) (n : String) (db : DB)
    (h : findByName db.accounts n = none) :
    undo_transaction t amt n db =
      (some ("Account " ++ n ++ " not found."),
       { accounts := db.accounts
         expenses := db.expenses.filter (fun e => ¬ e.id = t)
         cash_flow := db.cash_flow.filter (fun c => ¬ c.transaction_id = t) }) := by
  unfold undo_transaction
  unfold findByName at h
  simp only [h]

/-- Writing back an account's own balance is a no-op when its id is unique. -/
theorem updateBalance_self (l : List Account) (A : Account)
    (hid : ∀ x ∈ l, x.id = A.id → x = A) :
    updateBalance l A.id A.balance = l := by
  unfold updateBalance
  have : ∀ a ∈ l, (if a.id = A.id then { a with balance := A.balance } else a) = id a := by
    intro a ha
    by_cases h : a.id = A.id
    · rw [hid a ha h]
      simp
    · simp [h]
  rw [List.map_congr_left this, List.map_id]

/-- Characterization of a fully successful submit: balance deducted, expense
record appended, Debit cash-flow entry appended. -/
theorem submit_success_eq (f : FormData) (db : DB)
    (hdesc : ¬ f.description = "") (hp : ¬ f.price ≤ 0) (hq : ¬ f.quantity ≤ 0)
    (hbal : ¬ f.selected_account.balance - f.amount < 0)
    (hdup : expensesHasId db (txnId f db) = false) :
    submit_expense f db true true true =
      ([], { accounts := updateBalance db.accounts f.selected_account.id
                           (f.selected_account.balance - f.amount)
             expenses := db.expenses ++ [mkExpenseRecord f (txnId f db)]
             cash_flow := db.cash_flow ++
               [mkCashFlowEntry f (txnId f db) (f.selected_account.balance - f.amount)] }) := by
  unfold submit_expense
  simp only [hdesc, hp, hq, hbal, if_false, ite_false]
  simp [expensesHasId] at hdup
  simp [expensesHasId, hdup]
  exact hdup

/-- The account store after any submit: unchanged, or overwritten with the
form-observed balance minus the amount (and only when that is nonnegative). -/
theorem submit_accounts_cases (f : FormData) (db : DB) (u i c : Bool) :
    (submit_expense f db u i c).2.accounts = db.accounts ∨
    ((submit_expense f db u i c).2.accounts
       = updateBalance db.accounts f.selected_account.id
           (f.selected_account.balance - f.amount)
     ∧ ¬ f.selected_account.balance - f.amount < 0) := by
  unfold submit_expense
  dsimp only
  split_ifs with h1 h2 h3 h4 h5 h6 h7 h8 <;> simp [*]

/-- The expense store after any submit: unchanged, or appended with the new
record, which only happens when the allocated id is not already present. -/
theorem submit_expenses_cases (f : FormData) (db : DB) (u i c : Bool) :
    (submit_expense f db u i c).2.expenses = db.expenses ∨
    ((submit_expense f db u i c).2.expenses
       = db.expenses ++ [mkExpenseRecord f (txnId f db)]
     ∧ expensesHasId db (txnId f db) = false) := by
  unfold submit_expense
  dsimp only
  split_ifs with h1 h2 h3 h4 h5 h6 h7 h8 <;>
    first
      | exact Or.inl rfl
      | refine Or.inr ⟨rfl, ?_⟩ <;> simp_all [expensesHasId]

/-- A submit that returns no errors allocated an id not already present. -/
theorem submit_success_no_dup (f : FormData) (db : DB) (u i c : Bool)
    (h : (submit_expense f db u i c).1 = []) :
    expensesHasId db (txnId f db) = false := by
  revert h
  unfold submit_expense
  dsimp only
  split_ifs with h1 h2 h3 h4 h5 h6 h7 h8 <;> intro h
  all_goals dsimp only at h ⊢
  all_goals try (exfalso; simpa using h)
  simpa [expensesHasId] using h6

/-- Bridge between the Boolean duplicate check and id-list membership. -/
theorem not_mem_expenseIds_of_hasId_false (db : DB) (t : String)
    (h : expensesHasId db t = false) : t ∉ expenseIds db := by
  simp only [expensesHasId, List.any_eq_false, decide_eq_true_eq] at h
  simp only [expenseIds, List.mem_map]
  rintro ⟨e, he, rfl⟩
  exact h e he rfl

set_option maxRecDepth 20000 in
/-- C1, counterexample: from the reachable state `dbAfterUndo` (balance 990,
only `EXP-20261012-002` live), a submit of amount 10 on the same billing date
allocates the colliding id `EXP-20261012-002`, fails at the expense insert —
and leaves the balance deducted to 980: an erroring Submit changed the
stores, refuting byte-for-byte atomicity. -/
theorem submit_insert_failure_residue_cex :
    dbAfterUndo.accounts = [acctA 990] ∧
    expenseIds dbAfterUndo = ["EXP-20261012-002"] ∧
    (submit_expense (formA 990 10) dbAfterUndo true true true).1 ≠ [] ∧
    (submit_expense (formA 990 10) dbAfterUndo true true true).2.accounts = [acctA 980] ∧
    (submit_expense (formA 990 10) dbAfterUndo true true true).2 ≠ dbAfterUndo := by
  with_unfolding_all decide

/-- C1, amended: every Submit error is one of eight messages; none touches
the CashFlow store; the five errors raised before the account-balance update
(the three validation failures, insufficient balance, failed balance update)
leave the whole store state unchanged; the two insert-step errors (duplicate
id, failed insert) leave the balance deducted with the expense store
unchanged; and the cash-flow error leaves the balance deducted AND the
inserted expense record in place — the deduction is never compensated. -/
theorem submit_error_residue (f : FormData) (db : DB) (u i c : Bool)
    (h : (submit_expense f db u i c).1 ≠ []) :
    (submit_expense f db u i c).2.cash_flow = db.cash_flow ∧
    (((submit_expense f db u i c).1 = ["⚠️ Description is required."] ∨
      (submit_expense f db u i c).1 = ["⚠️ Price must be greater than 0."] ∨
      (submit_expense f db u i c).1 = ["⚠️ Quantity must be at least 1."] ∨
      (submit_expense f db u i c).1 = ["❌ Insufficient balance in the selected account."] ∨
      (submit_expense f db u i c).1 = ["❌ Failed to update account balance."]) →
      (submit_expense f db u i c).2 = db) ∧
    (((submit_expense f db u i c).1 = ["Unexpected error occurred: duplicate key"] ∨
      (submit_expense f db u i c).1 = ["❌ Insert failed."]) →
      (submit_expense f db u i c).2.accounts
          = updateBalance db.accounts f.selected_account.id
              (f.selected_account.balance - f.amount) ∧
      (submit_expense f db u i c).2.expenses = db.expenses) ∧
    ((submit_expense f db u i c).1 = ["⚠️ Failed to log cash flow."] →
      (submit_expense f db u i c).2.accounts
          = updateBalance db.accounts f.selected_account.id
              (f.selected_account.balance - f.amount) ∧
      (submit_expense f db u i c).2.expenses
          = db.expenses ++ [mkExpenseRecord f (txnId f db)]) ∧
    ((submit_expense f db u i c).1 = ["⚠️ Description is required."] ∨
     (submit_expense f db u i c).1 = ["⚠️ Price must be greater than 0."] ∨
     (submit_expense f db u i c).1 = ["⚠️ Quantity must be at least 1."] ∨
     (submit_expense f db u i c).1 = ["❌ Insufficient balance in the selected account."] ∨
     (submit_expense f db u i c).1 = ["❌ Failed to update account balance."] ∨
     (submit_expense f db u i c).1 = ["Unexpected error occurred: duplicate key"] ∨
     (submit_expense f db u i c).1 = ["❌ Insert failed."] ∨
     (submit_expense f db u i c).1 = ["⚠️ Failed to log cash flow."]) := by
  revert h
  unfold submit_expense
  dsimp only
  split_ifs with h1 h2 h3 h4 h5 h6 h7 h8 <;> intro h
  all_goals dsimp only at h ⊢
  · exact ⟨rfl, fun _ => rfl, fun hm => absurd hm (by decide),
      fun hm => absurd hm (by decide), Or.inl rfl⟩
  · exact ⟨rfl, fun _ => rfl, fun hm => absurd hm (by decide),
      fun hm => absurd hm (by decide), Or.inr (Or.inl rfl)⟩
  · exact ⟨rfl, fun _ => rfl, fun hm => absurd hm (by decide),
      fun hm => absurd hm (by decide), Or.inr (Or.inr (Or.inl rfl))⟩
  · exact ⟨rfl, fun _ => rfl, fun hm => absurd hm (by decide),
      fun hm => absurd hm (by decide), Or.inr (Or.inr (Or.inr (Or.inl rfl)))⟩
  · exact ⟨rfl, fun _ => rfl, fun hm => absurd hm (by decide),
      fun hm => absurd hm (by decide), Or.inr (Or.inr (Or.inr (Or.inr (Or.inl rfl))))⟩
  · exact ⟨rfl, fun hm => absurd hm (by decide), fun _ => ⟨rfl, rfl⟩,
      fun hm => absurd hm (by decide),
      Or.inr (Or.inr (Or.inr (Or.inr (Or.inr (Or.inl rfl)))))⟩
  · exact ⟨rfl, fun hm => absurd hm (by decide), fun _ => ⟨rfl, rfl⟩,
      fun hm => absurd hm (by decide),
      Or.inr (Or.inr (Or.inr (Or.inr (Or.inr (Or.inr (Or.inl rfl))))))⟩
  · exact ⟨rfl, fun hm => absurd hm (by decide), fun hm => absurd hm (by decide),
      fun _ => ⟨rfl, rfl⟩,
      Or.inr (Or.inr (Or.inr (Or.inr (Or.inr (Or.inr (Or.inr rfl))))))⟩
  · exact absurd rfl h

set_option maxRecDepth 20000 in
/-- C1, witness: the amended theorem applied to the concrete failing submit
of the counterexample (duplicate-id insert failure with residue). -/
theorem submit_error_residue_witness :
    (submit_expense (formA 990 10) dbAfterUndo true true true).2.cash_flow = dbAfterUndo.cash_flow ∧
    (((submit_expense (formA 990 10) dbAfterUndo true true true).1 = ["⚠️ Description is required."] ∨
      (submit_expense (formA 990 10) dbAfterUndo true true true).1 = ["⚠️ Price must be greater than 0."] ∨
      (submit_expense (formA 990 10) dbAfterUndo true true true).1 = ["⚠️ Quantity must be at least 1."] ∨
      (submit_expense (formA 990 10) dbAfterUndo true true true).1 = ["❌ Insufficient balance in the selected account."] ∨
      (submit_expense (formA 990 10) dbAfterUndo true true true).1 = ["❌ Failed to update account balance."]) →
      (submit_expense (formA 990 10) dbAfterUndo true true true).2 = dbAfterUndo) ∧
    (((submit_expense (formA 990 10) dbAfterUndo true true true).1 = ["Unexpected error occurred: duplicate key"] ∨
      (submit_expense (formA 990 10) dbAfterUndo true true true).1 = ["❌ Insert failed."]) →
      (submit_expense (formA 990 10) dbAfterUndo true true true).2.accounts
          = updateBalance dbAfterUndo.accounts (formA 990 10).selected_account.id
              ((formA 990 10).selected_account.balance - (formA 990 10).amount) ∧
      (submit_expense (formA 990 10) dbAfterUndo true true true).2.expenses = dbAfterUndo.expenses) ∧
    ((submit_expense (formA 990 10) dbAfterUndo true true true).1 = ["⚠️ Failed to log cash flow."] →
      (submit_expense (formA 990 10) dbAfterUndo true true true).2.accounts
          = updateBalance dbAfterUndo.accounts (formA 990 10).selected_account.id
              ((formA 990 10).selected_account.balance - (formA 990 10).amount) ∧
      (submit_expense (formA 990 10) dbAfterUndo true true true).2.expenses
          = dbAfterUndo.expenses ++ [mkExpenseRecord (formA 990 10) (txnId (formA 990 10) dbAfterUndo)]) ∧
    ((submit_expense (formA 990 10) dbAfterUndo true true true).1 = ["⚠️ Description is required."] ∨
     (submit_expense (formA 990 10) dbAfterUndo true true true).1 = ["⚠️ Price must be greater than 0."] ∨
     (submit_expense (formA 990 10) dbAfterUndo true true true).1 = ["⚠️ Quantity must be at least 1."] ∨
     (submit_expense (formA 990 10) dbAfterUndo true true true).1 = ["❌ Insufficient balance in the selected account."] ∨
     (submit_expense (formA 990 10) dbAfterUndo true true true).1 = ["❌ Failed to update account balance."] ∨
     (submit_expense (formA 990 10) dbAfterUndo true true true).1 = ["Unexpected error occurred: duplicate key"] ∨
     (submit_expense (formA 990 10) dbAfterUndo true true true).1 = ["❌ Insert failed."] ∨
     (submit_expense (formA 990 10) dbAfterUndo true true true).1 = ["⚠️ Failed to log cash flow."]) := by
  refine submit_error_residue (formA 990 10) dbAfterUndo true true true ?_
  with_unfolding_all decide

/-- C2: if the live transaction ids are distinct, they remain distinct after
any Submit (with any store-failure outcome) and after any Undo, and every
Submit that returns no error was assigned an id, `txnId`, different from
every live id at that moment. -/
theorem submit_undo_id_uniqueness :
    (∀ (f : FormData) (db : DB) (u i c : Bool), (expenseIds db).Nodup →
       (expenseIds (submit_expense f db u i c).2).Nodup ∧
       ((submit_expense f db u i c).1 = [] → txnId f db ∉ expenseIds db)) ∧
    (∀ (t : String) (amt : ℚ) (n : String) (db : DB), (expenseIds db).Nodup →
       (expenseIds (undo_transaction t amt n db).2).Nodup) := by
  constructor
  · intro f db u i c hnd
    constructor
    · rcases submit_expenses_cases f db u i c with h | ⟨h, hdup⟩
      · simpa [expenseIds, h] using hnd
      · have hni := not_mem_expenseIds_of_hasId_false db _ hdup
        simp only [expenseIds, h, List.map_append, List.map_cons, List.map_nil]
        rw [List.nodup_append]
        refine ⟨hnd, List.nodup_singleton _, ?_⟩
        intro x hx hx1
        simp only [List.mem_singleton] at hx1
        subst hx1
        exact hni hx
    · intro hsucc
      exact not_mem_expenseIds_of_hasId_false db _ (submit_success_no_dup f db u i c hsucc)
  · intro t amt n db hnd
    have hsub : (expenseIds (undo_transaction t amt n db).2).Sublist (expenseIds db) := by
      have hexp : (undo_transaction t amt n db).2.expenses
          = db.expenses.filter (fun e => ¬ e.id = t) := by
        unfold undo_transaction
        dsimp only
        rcases hfind : db.accounts.find? (fun a => a.account_name = n) with _ | acc <;>
          simp [hfind]
      rw [expenseIds, hexp]
      exact (List.filter_sublist db.expenses).map (fun e => e.id)
    exact hnd.sublist hsub

/-- C2, witness: both parts applied to concrete states. -/
theorem submit_undo_id_uniqueness_witness :
    ((expenseIds (submit_expense (formA 1000 10) dbInit true true true).2).Nodup ∧
     ((submit_expense (formA 1000 10) dbInit true true true).1 = [] →
        txnId (formA 1000 10) dbInit ∉ expenseIds dbInit)) ∧
    (expenseIds (undo_transaction "EXP-20261012-001" 30 "A" dbLive).2).Nodup := by
  refine ⟨submit_undo_id_uniqueness.1 (formA 1000 10) dbInit true true true ?_,
          submit_undo_id_uniqueness.2 "EXP-20261012-001" 30 "A" dbLive ?_⟩ <;>
    with_unfolding_all decide

/-- C3: a validated Submit whose observed balance minus amount is negative
fails with exactly the insufficient-balance error and leaves the store state
untouched; and any Submit preserves nonnegativity of all stored balances. -/
theorem insufficient_balance_guard :
    (∀ (f : FormData) (db : DB) (u i c : Bool),
       ¬ f.description = "" → ¬ f.price ≤ 0 → ¬ f.quantity ≤ 0 →
       f.selected_account.balance - f.amount < 0 →
       submit_expense f db u i c =
         (["❌ Insufficient balance in the selected account."], db)) ∧
    (∀ (f : FormData) (db : DB) (u i c : Bool),
       (∀ a ∈ db.accounts, 0 ≤ a.balance) →
       ∀ a ∈ (submit_expense f db u i c).2.accounts, 0 ≤ a.balance) := by
  constructor
  · intro f db u i c hdesc hp hq hbal
    unfold submit_expense
    dsimp only
    simp [hdesc, hp, hq, hbal]
  · intro f db u i c hpos a ha
    rcases submit_accounts_cases f db u i c with h | ⟨h, hnn⟩
    · rw [h] at ha
      exact hpos a ha
    · rw [h] at ha
      simp only [updateBalance, List.mem_map] at ha
      obtain ⟨x, hx, rfl⟩ := ha
      by_cases hxi : x.id = f.selected_account.id
      · simpa [hxi] using not_lt.1 hnn
      · simpa [hxi] using hpos x hx

/-- C3, witness: submitting amount 30 against balance 20 fails with the
insufficient-balance error and keeps all balances nonnegative. -/
theorem insufficient_balance_guard_witness :
    submit_expense (formA 20 30) dbPoor true true true =
      (["❌ Insufficient balance in the selected account."], dbPoor) ∧
    ∀ a ∈ (submit_expense (formA 20 30) dbPoor true true true).2.accounts, 0 ≤ a.balance := by
  constructor
  · refine insufficient_balance_guard.1 (formA 20 30) dbPoor true true true ?_ ?_ ?_ ?_ <;>
      with_unfolding_all decide
  · refine insufficient_balance_guard.2 (formA 20 30) dbPoor true true true ?_
    with_unfolding_all decide

/-- C4, counterexample: undoing `EXP-20261012-001` twice on `dbLive`
(balance 70, amount 30) reports success both times — the second is not
detected as already undone — and leaves the balance at 130 = 70 + 30 + 30,
not 70 + 30: the balance is credited twice. -/
theorem undo_twice_double_credit_cex :
    (undo_transaction "EXP-20261012-001" 30 "A" dbLive).1 = none ∧
    (undo_transaction "EXP-20261012-001" 30 "A"
        (undo_transaction "EXP-20261012-001" 30 "A" dbLive).2).1 = none ∧
    (undo_transaction "EXP-20261012-001" 30 "A"
        (undo_transaction "EXP-20261012-001" 30 "A" dbLive).2).2.accounts = [acctA 130] ∧
    ¬ (130 : ℚ) = 70 + 30 := by
  with_unfolding_all decide

/-- C4, amended: whenever the account name resolves, running Undo twice on
the same id reports success both times (no AlreadyUndone detection — the
absence of the CashFlowEntry is never consulted) and credits the account
with the amount on each call, ending at balance + 2·amount. -/
theorem undo_twice_double_credit (t : String) (amt : ℚ) (n : String) (db : DB)
    (acc : Account) (h : findByName db.accounts n = some acc) :
    (undo_transaction t amt n db).1 = none ∧
    (undo_transaction t amt n (undo_transaction t amt n db).2).1 = none ∧
    (undo_transaction t amt n (undo_transaction t amt n db).2).2.accounts
      = updateBalance db.accounts acc.id (acc.balance + amt + amt) := by
  rw [undo_transaction_found t amt n db acc h]
  have hfind2 : findByName (updateBalance db.accounts acc.id (acc.balance + amt)) n
      = some { acc with balance := acc.balance + amt } := by
    rw [findByName_updateBalance, h]
    simp
  rw [undo_transaction_found t amt n _ _ hfind2]
  simp [updateBalance_updateBalance]

/-- C4, witness: the amended theorem applied to `dbLive`. -/
theorem undo_twice_double_credit_witness :
    (undo_transaction "EXP-20261012-001" 30 "A" dbLive).1 = none ∧
    (undo_transaction "EXP-20261012-001" 30 "A"
        (undo_transaction "EXP-20261012-001" 30 "A" dbLive).2).1 = none ∧
    (undo_transaction "EXP-20261012-001" 30 "A"
        (undo_transaction "EXP-20261012-001" 30 "A" dbLive).2).2.accounts
      = updateBalance dbLive.accounts (acctA 70).id ((acctA 70).balance + 30 + 30) :=
  undo_twice_double_credit "EXP-20261012-001" 30 "A" dbLive (acctA 70)
    (by with_unfolding_all decide)

/-- C5, counterexample: undoing the live record of `dbOrphan` (whose account
is gone) reports the account-not-found error, yet the ExpenseRecord and the
CashFlowEntry have both already been deleted. -/
theorem undo_account_by_name_after_delete_cex :
    (undo_transaction "EXP-20261012-001" 30 "A" dbOrphan).1 ≠ none ∧
    (undo_transaction "EXP-20261012-001" 30 "A" dbOrphan).2.expenses = [] ∧
    (undo_transaction "EXP-20261012-001" 30 "A" dbOrphan).2.cash_flow = [] ∧
    dbOrphan.expenses ≠ [] ∧ dbOrphan.cash_flow ≠ [] := by
  with_unfolding_all decide

/-- C5, amended: Undo resolves the account by the record's stored account
NAME, and only after deleting the expense and cash-flow rows; when no
account bears that name it fails, with both deletions already applied and
the account store untouched. -/
theorem undo_account_missing_after_delete (t : String) (amt : ℚ) (n : String) (db : DB)
    (h : findByName db.accounts n = none) :
    undo_transaction t amt n db =
      (some ("Account " ++ n ++ " not found."),
       { accounts := db.accounts
         expenses := db.expenses.filter (fun e => ¬ e.id = t)
         cash_flow := db.cash_flow.filter (fun c => ¬ c.transaction_id = t) }) :=
  undo_transaction_notfound t amt n db h

/-- C5, witness: the amended theorem applied to `dbOrphan`. -/
theorem undo_account_missing_after_delete_witness :
    undo_transaction "EXP-20261012-001" 30 "A" dbOrphan =
      (some ("Account " ++ "A" ++ " not found."),
       { accounts := dbOrphan.accounts
         expenses := dbOrphan.expenses.filter (fun e => ¬ e.id = "EXP-20261012-001")
         cash_flow := dbOrphan.cash_flow.filter (fun c => ¬ c.transaction_id = "EXP-20261012-001") }) :=
  undo_account_missing_after_delete "EXP-20261012-001" 30 "A" dbOrphan
    (by with_unfolding_all decide)

/-- C6: a successful Submit followed by Undo of the allocated transaction id
is a round trip: when the form read a fresh balance, the account resolves
uniquely by name and id, the allocated id is fresh, and no stale cash-flow
row bears it, the Undo succeeds and returns every store to its exact
pre-Submit state. -/
theorem submit_undo_round_trip (f : FormData) (db : DB)
    (hfind : findByName db.accounts f.selected_account.account_name = some f.selected_account)
    (hid : ∀ x ∈ db.accounts, x.id = f.selected_account.id → x = f.selected_account)
    (hdesc : ¬ f.description = "") (hp : ¬ f.price ≤ 0) (hq : ¬ f.quantity ≤ 0)
    (hbal : ¬ f.selected_account.balance - f.amount < 0)
    (hdup : expensesHasId db (txnId f db) = false)
    (hcf : ∀ cfe ∈ db.cash_flow, ¬ cfe.transaction_id = txnId f db) :
    (submit_expense f db true true true).1 = [] ∧
    undo_transaction (txnId f db) f.amount f.selected_account.account_name
        (submit_expense f db true true true).2 = (none, db) := by
  rw [submit_success_eq f db hdesc hp hq hbal hdup]
  have hfind2 : findByName (updateBalance db.accounts f.selected_account.id
      (f.selected_account.balance - f.amount)) f.selected_account.account_name
      = some { f.selected_account with balance := f.selected_account.balance - f.amount } := by
    rw [findByName_updateBalance, hfind]
    simp
  rw [undo_transaction_found (txnId f db) f.amount f.selected_account.account_name _ _ hfind2]
  refine ⟨rfl, ?_⟩
  have hacc : updateBalance (updateBalance db.accounts f.selected_account.id
        (f.selected_account.balance - f.amount)) f.selected_account.id
        (f.selected_account.balance - f.amount + f.amount) = db.accounts := by
    rw [updateBalance_updateBalance, sub_add_cancel]
    exact updateBalance_self db.accounts f.selected_account hid
  have hexp : (db.expenses ++ [mkExpenseRecord f (txnId f db)]).filter
        (fun e => ¬ e.id = txnId f db) = db.expenses := by
    rw [List.filter_append]
    simp only [expensesHasId, List.any_eq_false, decide_eq_true_eq] at hdup
    rw [List.filter_eq_self.2 (by intro e he; simpa using hdup e he)]
    simp [mkExpenseRecord]
  have hcfe : (db.cash_flow ++ [mkCashFlowEntry f (txnId f db)
        (f.selected_account.balance - f.amount)]).filter
        (fun c => ¬ c.transaction_id = txnId f db) = db.cash_flow := by
    rw [List.filter_append]
    rw [List.filter_eq_self.2 (by intro cfe he; simpa using hcf cfe he)]
    simp [mkCashFlowEntry]
  rcases db with ⟨accs, exps, cfs⟩
  simp only at hacc hexp hcfe
  simp only [Prod.mk.injEq, DB.mk.injEq]
  exact ⟨trivial, hacc, hexp, hcfe⟩

set_option maxRecDepth 8000 in
/-- C6, witness: a submit of amount 10 on `dbInit` followed by its undo
restores the store state exactly. -/
theorem submit_undo_round_trip_witness :
    (submit_expense (formA 1000 10) dbInit true true true).1 = [] ∧
    undo_transaction (txnId (formA 1000 10) dbInit) (formA 1000 10).amount
        (formA 1000 10).selected_account.account_name
        (submit_expense (formA 1000 10) dbInit true true true).2 = (none, dbInit) := by
  refine submit_undo_round_trip (formA 1000 10) dbInit ?_ ?_ ?_ ?_ ?_ ?_ ?_ ?_ <;>
    with_unfolding_all decide

/-- C7, counterexample: with stored balance 50 but form-observed balance 100
(amount 30), Submit does not fail with any concurrent-modification error —
it succeeds and overwrites the stored balance with 70 = 100 − 30. -/
theorem submit_no_concurrency_guard_cex :
    dbStale.accounts = [acctA 50] ∧
    (formA 100 30).selected_account.balance = 100 ∧
    ¬ (50 : ℚ) = 100 ∧
    (submit_expense (formA 100 30) dbStale true true true).1 = [] ∧
    (submit_expense (formA 100 30) dbStale true true true).2.accounts = [acctA 70] := by
  with_unfolding_all decide

/-- C7, amended: the balance write is unconditional — for every store state,
a validated Submit sets the selected account's balance to the form-observed
balance minus the amount, regardless of the currently stored balance; no
ConcurrentModification detection exists. -/
theorem submit_balance_write_unconditional (f : FormData) (db : DB) (i c : Bool)
    (hdesc : ¬ f.description = "") (hp : ¬ f.price ≤ 0) (hq : ¬ f.quantity ≤ 0)
    (hbal : ¬ f.selected_account.balance - f.amount < 0) :
    (submit_expense f db true i c).2.accounts
      = updateBalance db.accounts f.selected_account.id
          (f.selected_account.balance - f.amount) := by
  unfold submit_expense
  dsimp only
  simp only [hdesc, hp, hq, hbal, if_false, ite_false]
  split_ifs <;> simp_all

/-- C7, witness: the amended theorem applied to the stale-balance state. -/
theorem submit_balance_write_unconditional_witness :
    (submit_expense (formA 100 30) dbStale true true true).2.accounts
      = updateBalance dbStale.accounts (formA 100 30).selected_account.id
          ((formA 100 30).selected_account.balance - (formA 100 30).amount) := by
  refine submit_balance_write_unconditional (formA 100 30) dbStale true true ?_ ?_ ?_ ?_ <;>
    with_unfolding_all decide

/-- C9, counterexample: an input whose category/subcategory pairing is not
recognized is accepted — Submit returns no error and writes to the stores,
so the fourth claimed validation rule does not exist. -/
theorem submit_category_not_validated_cex :
    recognized_pair "Nope" "X" = false ∧
    formBad.main_category = "Nope" ∧ formBad.subcategory = "X" ∧
    (submit_expense formBad dbInit true true true).1 = [] ∧
    (submit_expense formBad dbInit true true true).2 ≠ dbInit := by
  with_unfolding_all decide

/-- C9, amended: Submit validates fail-fast in the order description present
→ price > 0 → quantity ≥ 1, returning exactly the first violated rule as the
only error, with the store state untouched; category/subcategory pairing is
not checked. -/
theorem submit_validation_order (f : FormData) (db : DB) (u i c : Bool) :
    (f.description = "" →
       submit_expense f db u i c = (["⚠️ Description is required."], db)) ∧
    (¬ f.description = "" → f.price ≤ 0 →
       submit_expense f db u i c = (["⚠️ Price must be greater than 0."], db)) ∧
    (¬ f.description = "" → ¬ f.price ≤ 0 → f.quantity ≤ 0 →
       submit_expense f db u i c = (["⚠️ Quantity must be at least 1."], db)) := by
  refine ⟨?_, ?_, ?_⟩
  · intro h1
    unfold submit_expense
    simp [h1]
  · intro h1 h2
    unfold submit_expense
    simp [h1, h2]
  · intro h1 h2 h3
    unfold submit_expense
    simp [h1, h2, h3]

/-- C9, witness: the three validation outcomes at concrete inputs. -/
theorem submit_validation_order_witness :
    (submit_expense formEmptyDesc dbInit true true true =
      (["⚠️ Description is required."], dbInit)) ∧
    (submit_expense (formA 1000 0) dbInit true true true =
      (["⚠️ Price must be greater than 0."], dbInit)) ∧
    (submit_expense formQty0 dbInit true true true =
      (["⚠️ Quantity must be at least 1."], dbInit)) := by
  refine ⟨(submit_validation_order formEmptyDesc dbInit true true true).1 ?_,
          (submit_validation_order (formA 1000 0) dbInit true true true).2.1 ?_ ?_,
          (submit_validation_order formQty0 dbInit true true true).2.2 ?_ ?_ ?_⟩ <;>
    with_unfolding_all decide

/-- C10: whenever Undo reaches the balance-restoration step, the balance
written is the balance of the account as freshly looked up at undo time plus
the record's amount; the cash-flow entry's stored `updated_balance` plays no
role in the result. -/
theorem undo_balance_from_fresh_read (t : String) (amt : ℚ) (n : String) (db : DB)
    (acc : Account) (h : findByName db.accounts n = some acc) :
    undo_transaction t amt n db =
      (none,
       { accounts := updateBalance db.accounts acc.id (acc.balance + amt)
         expenses := db.expenses.filter (fun e => ¬ e.id = t)
         cash_flow := db.cash_flow.filter (fun c => ¬ c.transaction_id = t) }) :=
  undo_transaction_found t amt n db acc h

/-- C10, witness: the theorem applied to `dbLive`. -/
theorem undo_balance_from_fresh_read_witness :
    undo_transaction "EXP-20261012-001" 30 "A" dbLive =
      (none,
       { accounts := updateBalance dbLive.accounts (acctA 70).id ((acctA 70).balance + 30)
         expenses := dbLive.expenses.filter (fun e => ¬ e.id = "EXP-20261012-001")
         cash_flow := dbLive.cash_flow.filter (fun c => ¬ c.transaction_id = "EXP-20261012-001") }) :=
  undo_balance_from_fresh_read "EXP-20261012-001" 30 "A" dbLive (acctA 70)
    (by with_unfolding_all decide)
